import Mathlib

/-!
Verification of the token-counting, nucleus-sampling and few-shot-prompting
scripts of the Zenith_AI repository, by a shallow embedding of the relevant
Python functions into Lean.

Modelling conventions:
* Python strings are Lean `String` (both count Unicode code points, so
  Python `len` is `String.length`).
* Python truthiness of optional strings (`if file:`, `text or ""`) is made
  explicit with `pyTruthy` / `pyOr`.
* `raise SystemExit(msg)` (non-zero exit with a message) is `Except.error msg`;
  a normal run is `Except.ok`.
* The optional external `tiktoken` library is a parameter: `none` models a
  failed import, and each stage of using it (`get_encoding`, `encode`) may
  fail, modelling the exceptions caught by the `try/except` in the source.
-/

/-- Case-folding used for `model.lower()` in the source (ASCII-compatible
character-by-character lowering, which is what `str.lower` does on the
model-name strings involved). -/
def pyLower (s : String) : String := String.mk (s.data.map Char.toLower)

/-- `charsStartWith p s` is true when the character list `p` is an initial
segment of `s`. Helper for embedding Python's substring test `p in s`. -/
def charsStartWith : List Char → List Char → Bool
  | [], _ => true
  | _ :: _, [] => false
  | p :: ps, c :: cs => p == c && charsStartWith ps cs

/-- `charsContain pat s` is true when `pat` occurs contiguously in `s`
(Python's `pat in s` on the underlying character lists). -/
def charsContain (pat : List Char) : List Char → Bool
  | [] => pat.isEmpty
  | c :: cs => charsStartWith pat (c :: cs) || charsContain pat cs

/-- Python's substring test `pat in s`. -/
def strContains (s pat : String) : Bool := charsContain pat.data s.data

/-- The fixed substring keys of `get_encoding_name`
(`["gpt-4", "gpt-3.5", "mini", "o1", "omni"]` in the source). -/
def model_keys : List String := ["gpt-4", "gpt-3.5", "mini", "o1", "omni"]

/-- Embedding of `get_encoding_name` from
`src/concepts/tokens_and_tokenization.py`: lower-case the model name, and if
it contains any of the known family substrings return `"cl100k_base"`,
otherwise return `"cl100k_base"` as the default. -/
def get_encoding_name (model : String) : String :=
  let m := pyLower model
  if model_keys.any (fun k => strContains m k) then "cl100k_base"
  else "cl100k_base"

/-- The encoding name returned by the final (default) branch of
`get_encoding_name`. -/
def default_encoding : String := "cl100k_base"

/-- Whether the lowered model name matches one of the known family
substrings, i.e. whether the first branch of `get_encoding_name` is taken. -/
def recognizedFamily (model : String) : Bool :=
  model_keys.any (fun k => strContains (pyLower model) k)

/-- Model of an imported `tiktoken` module: `getEncoding` may fail (raising
inside `tiktoken.get_encoding`), and the returned encoder's `encode` may fail;
on success `encode` yields the token list of the text. -/
structure TiktokenEnv where
  getEncoding : String → Option (String → Option (List Nat))

/-- The body of the `try` block of `count_tokens`: resolve the encoding for
the model, obtain the encoder, encode the text and return the length of the
token list. Any failure is an exception (`Except.error`). -/
def exact_count (env : TiktokenEnv) (text model : String) : Except String Nat :=
  match env.getEncoding (get_encoding_name model) with
  | none => Except.error "tiktoken.get_encoding raised"
  | some enc =>
    match enc text with
    | none => Except.error "encode raised"
    | some toks => Except.ok toks.length

/-- Embedding of `count_tokens` from
`src/concepts/tokens_and_tokenization.py`: if `tiktoken` imports (`env` is
`some`) and the whole exact path succeeds, return the exact token count;
on any failure (failed import or any exception in the `try` block) fall back
to the heuristic `max(1, len(text) // 4)`. -/
def count_tokens (env : Option TiktokenEnv) (text model : String) : Nat :=
  match env with
  | none => max 1 (text.length / 4)
  | some e =>
    match exact_count e text model with
    | Except.ok n => n
    | Except.error _ => max 1 (text.length / 4)

/-- Python truthiness of an optional string (`None` and `""` are falsy). -/
def pyTruthy (o : Option String) : Bool :=
  match o with
  | none => false
  | some s => !s.isEmpty

/-- Python's `o or d` for an optional string `o`. -/
def pyOr (o : Option String) (d : String) : String :=
  match o with
  | none => d
  | some s => if s.isEmpty then d else s

/-- Embedding of `load_text` from `src/concepts/tokens_and_tokenization.py`.
The file system is a parameter `fs`; `fs f = none` models `Path(f).exists()`
being false, and `fs f = some c` models reading the content `c`. -/
def load_text (fs : String → Option String) (file text : Option String) :
    Except String String :=
  if pyTruthy file then
    match fs (file.getD "") with
    | none => Except.error ("File not found: " ++ file.getD "")
    | some content => Except.ok content
  else Except.ok (pyOr text "")

/-- The command-line arguments of the tokenization script. -/
structure Args where
  text : Option String
  file : Option String
  model : String
  show_sample : Nat

/-- What a successful run of the tokenization script prints: the optional
sample block, then the model, character and approximate-token lines. -/
structure TokOutput where
  sample : Option String
  model : String
  characters : Nat
  approx_tokens : Nat

/-- Embedding of `main` from `src/concepts/tokens_and_tokenization.py`,
parameterised by the token-counting function `cnt` (the program instantiates
`cnt` with `count_tokens env`; quantifying over `cnt` expresses that an error
exit happens without the estimator ever being invoked). -/
def main_tok (cnt : String → String → Nat) (fs : String → Option String)
    (args : Args) : Except String TokOutput :=
  match load_text fs args.file args.text with
  | Except.error e => Except.error e
  | Except.ok body =>
    if body.isEmpty then Except.error "Provide --text or --file"
    else
      Except.ok
        { sample :=
            if args.show_sample > 0 then some (String.mk (body.data.take args.show_sample))
            else none
          model := args.model
          characters := body.length
          approx_tokens := cnt body args.model }

/-- ASCII whitespace as stripped by Python's `str.strip()` (the characters
relevant to the `--sweep` chunks). -/
def isSpaceChar (c : Char) : Bool :=
  c == ' ' || c == '\t' || c == '\n' || c == '\r' || c == '\x0b' || c == '\x0c'

/-- Python's `chunk.strip()`. -/
def strip (s : String) : String :=
  String.mk (((s.data.dropWhile isSpaceChar).reverse.dropWhile isSpaceChar).reverse)

/-- Helper for `splitComma`: accumulate the current chunk (reversed) while
scanning the characters. -/
def splitCommaAux : List Char → List Char → List String
  | [], acc => [String.mk acc.reverse]
  | c :: rest, acc =>
    if c == ',' then String.mk acc.reverse :: splitCommaAux rest []
    else splitCommaAux rest (c :: acc)

/-- Python's `sweep_str.split(",")`. -/
def splitComma (s : String) : List String := splitCommaAux s.data []

/-- The loop body of `parse_sweep` in `src/concepts/top_p.py`, over the list
of comma-separated chunks. `pf` models Python's `float()`: `none` is a
`ValueError`. Nucleus values are modelled as exact rationals: the sweep
strings are only parsed and compared against `0.0` and `1.0`, never operated
on, so rational values mirror the float comparisons exactly. -/
def parse_chunks (pf : String → Option ℚ) : List String → Except String (List ℚ)
  | [] => Except.ok []
  | chunk :: rest =>
    if (strip chunk).isEmpty then parse_chunks pf rest
    else
      match pf (strip chunk) with
      | none => Except.error ("Invalid top_p in --sweep: " ++ strip chunk)
      | some v =>
        if 0 ≤ v ∧ v ≤ 1 then
          match parse_chunks pf rest with
          | Except.ok vs => Except.ok (v :: vs)
          | Except.error e => Except.error e
        else Except.error "top_p must be between 0.0 and 1.0, got out-of-range value"

/-- Embedding of `parse_sweep` from `src/concepts/top_p.py`: split on commas,
strip each chunk, skip empty chunks, reject unparsable or out-of-range
values with `SystemExit`, and reject an entirely-empty result. -/
def parse_sweep (pf : String → Option ℚ) (sweep_str : String) :
    Except String (List ℚ) :=
  match parse_chunks pf (splitComma sweep_str) with
  | Except.error e => Except.error e
  | Except.ok vals =>
    if vals.isEmpty then Except.error "--sweep provided but empty after parsing"
    else Except.ok vals

/-- Embedding of the statement
`p_vals = parse_sweep(args.sweep) if args.sweep else [args.top_p]` in `main`
of `src/concepts/top_p.py`. On `Except.ok vs` the program proceeds to call
`client.chat.completions.create` with each value of `vs` in order (`args.n`
times each); on `Except.error` it terminates with a non-zero exit before any
request. Note the single `--top-p` value reaches the request loop without any
range validation (argparse only converts it with `type=float`). -/
def select_p_vals (pf : String → Option ℚ) (sweep : Option String) (top_p : ℚ) :
    Except String (List ℚ) :=
  if pyTruthy sweep then parse_sweep pf (sweep.getD "") else Except.ok [top_p]

/-- A chat message as built by the scripts: a role/content pair. -/
structure ChatMessage where
  role : String
  content : String
deriving DecidableEq

/-- One few-shot example pair (the `user`/`assistant` dictionaries of
`src/concepts/few_shot_prompting.py`). -/
structure ExamplePair where
  user : String
  assistant : String
deriving DecidableEq

/-- The `system_msg` of `main` in `src/concepts/few_shot_prompting.py`. -/
def system_msg : ChatMessage :=
  ⟨"system",
    "You are a precise assistant. Follow the format implied by examples and adhere to the instruction."⟩

/-- The for-loop of `main` in `src/concepts/few_shot_prompting.py` that, in
order, appends a user message and an assistant message for each example. -/
def examplePairMsgs : List ExamplePair → List ChatMessage
  | [] => []
  | ex :: rest =>
    ⟨"user", ex.user⟩ :: ⟨"assistant", ex.assistant⟩ :: examplePairMsgs rest

/-- The live user query appended last by `main` of the few-shot script. -/
def user_query (instruction inputText : String) : ChatMessage :=
  ⟨"user", "Instruction: " ++ instruction ++ "\nInput: " ++ inputText⟩

/-- Embedding of the message assembly in `main` of
`src/concepts/few_shot_prompting.py`: the list starts as `[system_msg]`, the
for-loop appends a user/assistant pair per example, and the live query is
appended last. The finished list is passed unchanged to the single
`client.chat.completions.create` call and never touched again. -/
def build_messages (examples : List ExamplePair) (instruction inputText : String) :
    List ChatMessage :=
  system_msg :: (examplePairMsgs examples ++ [user_query instruction inputText])

/-- The built-in `default_examples()` of the few-shot script. -/
def default_examples : List ExamplePair :=
  [⟨"Instruction: Generate a concise email subject (<=8 words).\nInput: The team offsite is next Friday; please fill out the dietary form by Wednesday.",
    "Team offsite: fill dietary form by Wed"⟩,
   ⟨"Instruction: Generate a concise email subject (<=8 words).\nInput: Thanks for your purchase—your package ships tomorrow with tracking.",
    "Your order ships tomorrow (tracking inside)"⟩,
   ⟨"Instruction: Generate a concise email subject (<=8 words).\nInput: Quick reminder: book your 1:1s for next week.",
    "Reminder: book next week’s 1:1s"⟩]

/-- Both branches of `get_encoding_name` return the same literal, so the
function is constant. Shared helper for the claims below. -/
theorem get_encoding_name_eq (m : String) : get_encoding_name m = "cl100k_base" := by
  simp [get_encoding_name]

/-- C10: `get_encoding_name` is a constant function: every model-name string,
recognized families and unknown names alike, yields `"cl100k_base"`, so the
family branch and the default branch select identical encodings. -/
theorem get_encoding_name_constant :
    ∀ m : String, get_encoding_name m = "cl100k_base" :=
  fun m => get_encoding_name_eq m

/-- C7: model-name-to-encoding resolution is total and never errors, and
every unrecognized model name resolves to the default encoding; in
particular `get_encoding_name "some-future-model" = default_encoding`. -/
theorem get_encoding_name_default_fallback :
    (∀ m : String, recognizedFamily m = false →
      get_encoding_name m = default_encoding) ∧
    get_encoding_name "some-future-model" = default_encoding :=
  ⟨fun m _ => get_encoding_name_eq m, get_encoding_name_eq "some-future-model"⟩

/-- Witness for C7 at the concrete unrecognized name `"some-future-model"`. -/
theorem get_encoding_name_default_fallback_witness :
    recognizedFamily "some-future-model" = false ∧
    get_encoding_name "some-future-model" = default_encoding :=
  ⟨by decide,
   get_encoding_name_default_fallback.1 "some-future-model" (by decide)⟩

/-- C8: model-name resolution is case-insensitive: two model names with the
same lower-casing resolve to the same encoding; in particular
`get_encoding_name "GPT-4" = get_encoding_name "gpt-4"`. -/
theorem get_encoding_name_case_insensitive :
    (∀ m₁ m₂ : String, pyLower m₁ = pyLower m₂ →
      get_encoding_name m₁ = get_encoding_name m₂) ∧
    get_encoding_name "GPT-4" = get_encoding_name "gpt-4" :=
  ⟨fun m₁ m₂ _ => (get_encoding_name_eq m₁).trans (get_encoding_name_eq m₂).symm,
   (get_encoding_name_eq "GPT-4").trans (get_encoding_name_eq "gpt-4").symm⟩

/-- Witness for C8 at the concrete pair `"GPT-4"` / `"gpt-4"`. -/
theorem get_encoding_name_case_insensitive_witness :
    get_encoding_name "GPT-4" = get_encoding_name "gpt-4" :=
  get_encoding_name_case_insensitive.1 "GPT-4" "gpt-4" (by decide)

/-- C1: whenever the exact tokenizer is unavailable (failed import) or its
invocation fails, `count_tokens t m` equals `max 1 (len t / 4)` for every
text `t`, independently of the model name `m`; for the 11-character text
`"Hello world"` this heuristic gives 2. -/
theorem heuristic_count_tokens_spec :
    (∀ (env : Option TiktokenEnv) (t m : String),
        env = none ∨ (∃ e s, env = some e ∧ exact_count e t m = Except.error s) →
        count_tokens env t m = max 1 (t.length / 4)) ∧
    count_tokens none "Hello world" "gpt-4o-mini" = 2 := by
  constructor
  · rintro env t m (rfl | ⟨e, s, rfl, he⟩)
    · rfl
    · simp [count_tokens, he]
  · decide

/-- Witness for C1 on the heuristic path at `"Hello world"`. -/
theorem heuristic_count_tokens_spec_witness :
    count_tokens none "Hello world" "gpt-4o-mini" = max 1 ("Hello world".length / 4) :=
  heuristic_count_tokens_spec.1 none "Hello world" "gpt-4o-mini" (Or.inl rfl)

/-- C3: `count_tokens` never lets a tokenizer failure escape: for every
environment, text and model, the result is either the exact tokenizer's
successful count or the heuristic value — an error of the exact path is
caught internally and replaced by the heuristic, never surfaced. -/
theorem count_tokens_total_fallback (env : Option TiktokenEnv) (t m : String) :
    (∃ e n, env = some e ∧ exact_count e t m = Except.ok n ∧
      count_tokens env t m = n) ∨
    count_tokens env t m = max 1 (t.length / 4) := by
  cases env with
  | none => exact Or.inr rfl
  | some e =>
    cases he : exact_count e t m with
    | ok n => exact Or.inl ⟨e, n, rfl, he, by simp [count_tokens, he]⟩
    | error s => exact Or.inr (by simp [count_tokens, he])

/-- C4: for every non-empty text and every model name, `count_tokens`
returns at least 1, on the heuristic path unconditionally and on the exact
path provided the external tokenizer returns at least one token for a
non-empty text (which byte-pair encoders such as tiktoken's do). -/
theorem count_tokens_pos (env : Option TiktokenEnv) (t m : String)
    (_ht : t ≠ "")
    (henc : ∀ e enc toks, env = some e →
        e.getEncoding (get_encoding_name m) = some enc →
        enc t = some toks → toks ≠ []) :
    1 ≤ count_tokens env t m := by
  cases env with
  | none => exact le_max_left 1 _
  | some e =>
    unfold count_tokens exact_count
    cases hg : e.getEncoding (get_encoding_name m) with
    | none => simp [hg]
    | some enc =>
      cases hv : enc t with
      | none => simp [hg, hv]
      | some toks =>
        have hne := henc e enc toks rfl hg hv
        simpa [hg, hv] using List.length_pos.mpr hne

/-- Witness for C4 at the non-empty text `"a"` with the tokenizer absent. -/
theorem count_tokens_pos_witness : 1 ≤ count_tokens none "a" "gpt-4" :=
  count_tokens_pos none "a" "gpt-4" (by decide)
    (fun _ _ _ h _ _ => Option.noConfusion h)

/-- C5: when the resolved text body is empty (in particular when neither
inline text nor a file path was supplied), the tokenization script exits
with the error `"Provide --text or --file"`; this holds for every counting
function, so the estimator is never invoked and no token count is produced. -/
theorem main_tok_empty_input_error (fs : String → Option String) (args : Args)
    (h : load_text fs args.file args.text = Except.ok "") :
    ∀ cnt : String → String → Nat,
      main_tok cnt fs args = Except.error "Provide --text or --file" := by
  intro cnt
  unfold main_tok
  rw [h]
  rfl

/-- Witness for C5: no inline text and no file path supplied. -/
theorem main_tok_empty_input_error_witness :
    main_tok (fun t _ => max 1 (t.length / 4)) (fun _ => none)
      { text := none, file := none, model := "gpt-4o-mini", show_sample := 0 } =
    Except.error "Provide --text or --file" :=
  main_tok_empty_input_error (fun _ => none)
    { text := none, file := none, model := "gpt-4o-mini", show_sample := 0 }
    rfl (fun t _ => max 1 (t.length / 4))

/-- C6: when the supplied file path names a non-existent file, the
tokenization script exits with the `"File not found"` error; this holds for
every counting function, so no token estimation is attempted. -/
theorem main_tok_missing_file_error (fs : String → Option String) (args : Args)
    (f : String) (hf : args.file = some f) (hne : f.isEmpty = false)
    (hmiss : fs f = none) :
    ∀ cnt : String → String → Nat,
      main_tok cnt fs args = Except.error ("File not found: " ++ f) := by
  intro cnt
  unfold main_tok load_text
  rw [hf]
  simp [pyTruthy, hne, hmiss]

/-- Witness for C6 at the concrete missing path `"missing.txt"` on an empty
file system. -/
theorem main_tok_missing_file_error_witness :
    main_tok (fun t _ => max 1 (t.length / 4)) (fun _ => none)
      { text := none, file := some "missing.txt", model := "gpt-4o-mini",
        show_sample := 0 } =
    Except.error ("File not found: " ++ "missing.txt") :=
  main_tok_missing_file_error (fun _ => none)
    { text := none, file := some "missing.txt", model := "gpt-4o-mini",
      show_sample := 0 }
    "missing.txt" rfl (by decide) rfl (fun t _ => max 1 (t.length / 4))

/-- The example loop contributes two messages per example. -/
theorem examplePairMsgs_length (exs : List ExamplePair) :
    (examplePairMsgs exs).length = 2 * exs.length := by
  induction exs with
  | nil => rfl
  | cons ex rest ih => simp [examplePairMsgs, ih]; ring

/-- Positions `2*i` and `2*i+1` of the example-loop output are the user and
assistant messages of the `i`-th example. -/
theorem examplePairMsgs_getElem (exs : List ExamplePair) (i : Nat)
    (h : i < exs.length) :
    (examplePairMsgs exs)[2 * i]? = some ⟨"user", exs[i].user⟩ ∧
    (examplePairMsgs exs)[2 * i + 1]? = some ⟨"assistant", exs[i].assistant⟩ := by
  induction exs generalizing i with
  | nil => exact absurd h (Nat.not_lt_zero i)
  | cons ex rest ih =>
    cases i with
    | zero => simp [examplePairMsgs]
    | succ j =>
      have hj : j < rest.length := Nat.lt_of_succ_lt_succ h
      have h2 : 2 * (j + 1) = 2 * j + 1 + 1 := by ring
      rw [h2]
      simpa [examplePairMsgs] using ih j hj

/-- C9: the chat sequence built by the few-shot script always consists of
exactly one system message first, then a user/assistant pair per example in
order, then the live user query as the last message; the sequence is a pure
value, fully built before the request. -/
theorem build_messages_shape (exs : List ExamplePair) (instruction inputText : String) :
    (build_messages exs instruction inputText).length = 2 * exs.length + 2 ∧
    (build_messages exs instruction inputText).head? = some system_msg ∧
    (∀ i (h : i < exs.length),
      (build_messages exs instruction inputText)[2 * i + 1]? =
        some ⟨"user", exs[i].user⟩ ∧
      (build_messages exs instruction inputText)[2 * i + 2]? =
        some ⟨"assistant", exs[i].assistant⟩) ∧
    (build_messages exs instruction inputText).getLast? =
      some (user_query instruction inputText) := by
  refine ⟨?_, rfl, ?_, ?_⟩
  · simp [build_messages, examplePairMsgs_length]
    try omega
  · intro i h
    have hm := examplePairMsgs_getElem exs i h
    have hlen := examplePairMsgs_length exs
    constructor
    · show (system_msg ::
          (examplePairMsgs exs ++ [user_query instruction inputText]))[2 * i + 1]? = _
      rw [List.getElem?_cons_succ, List.getElem?_append_left (by omega)]
      exact hm.1
    · show (system_msg ::
          (examplePairMsgs exs ++ [user_query instruction inputText]))[2 * i + 1 + 1]? = _
      rw [List.getElem?_cons_succ, List.getElem?_append_left (by omega)]
      exact hm.2
  · show (system_msg ::
        (examplePairMsgs exs ++ [user_query instruction inputText])).getLast? = _
    rw [← List.cons_append]
    exact List.getLast?_concat _

/-- Witness for C9 at the built-in default examples, checking the first
example pair of the built sequence. -/
theorem build_messages_shape_witness :
    (build_messages default_examples "i" "x")[1]? =
      some ⟨"user", default_examples[0].user⟩ ∧
    (build_messages default_examples "i" "x")[2]? =
      some ⟨"assistant", default_examples[0].assistant⟩ :=
  (build_messages_shape default_examples "i" "x").2.2.1 0 (by decide)

/-- Every value that survives the sweep loop's validation lies in [0, 1]:
an out-of-range element makes `parse_chunks` reject with `SystemExit`. -/
theorem parse_chunks_sound (pf : String → Option ℚ) (chunks : List String)
    (vals : List ℚ) (h : parse_chunks pf chunks = Except.ok vals) :
    ∀ v ∈ vals, 0 ≤ v ∧ v ≤ 1 := by
  induction chunks generalizing vals with
  | nil =>
    rw [parse_chunks] at h
    injection h with h'
    subst h'
    intro v hv
    exact absurd hv (List.not_mem_nil v)
  | cons c rest ih =>
    rw [parse_chunks] at h
    by_cases he : (strip c).isEmpty = true
    · rw [if_pos he] at h
      exact ih vals h
    · rw [if_neg he] at h
      cases hpf : pf (strip c) with
      | none => rw [hpf] at h; exact Except.noConfusion h
      | some v =>
        rw [hpf] at h
        dsimp only at h
        by_cases hr : 0 ≤ v ∧ v ≤ 1
        · rw [if_pos hr] at h
          cases hrec : parse_chunks pf rest with
          | ok vs =>
            rw [hrec] at h
            dsimp only at h
            injection h with h'
            subst h'
            intro w hw
            rcases List.mem_cons.mp hw with rfl | hw'
            · exact hr
            · exact ih vs hrec w hw'
          | error e => rw [hrec] at h; exact Except.noConfusion h
        · rw [if_neg hr] at h; exact Except.noConfusion h

/-- Soundness of `parse_sweep`: an accepted sweep only contains values
in [0, 1]. -/
theorem parse_sweep_sound (pf : String → Option ℚ) (s : String) (vals : List ℚ)
    (h : parse_sweep pf s = Except.ok vals) : ∀ v ∈ vals, 0 ≤ v ∧ v ≤ 1 := by
  rw [parse_sweep] at h
  cases hc : parse_chunks pf (splitComma s) with
  | error e => rw [hc] at h; exact Except.noConfusion h
  | ok vs =>
    rw [hc] at h
    dsimp only at h
    by_cases hv : vs.isEmpty = true
    · rw [if_pos hv] at h; exact Except.noConfusion h
    · rw [if_neg hv] at h
      injection h with h'
      subst h'
      exact parse_chunks_sound pf _ _ hc

/-- Completeness of the sweep loop's rejection: if any chunk strips to a
non-empty string that parses to a value outside [0, 1], `parse_chunks`
terminates with `SystemExit` (an earlier chunk may fail first, but the
result is an error either way). -/
theorem parse_chunks_reject (pf : String → Option ℚ) (chunks : List String)
    (h : ∃ c ∈ chunks, (strip c).isEmpty = false ∧
          ∃ v, pf (strip c) = some v ∧ ¬(0 ≤ v ∧ v ≤ 1)) :
    ∃ e, parse_chunks pf chunks = Except.error e := by
  induction chunks with
  | nil =>
    rcases h with ⟨c, hc, _⟩
    exact absurd hc (List.not_mem_nil c)
  | cons c rest ih =>
    rw [parse_chunks]
    by_cases he : (strip c).isEmpty = true
    · rw [if_pos he]
      apply ih
      rcases h with ⟨c', hc', hemp, hbad⟩
      rcases List.mem_cons.mp hc' with rfl | hmem
      · rw [he] at hemp
        exact Bool.noConfusion hemp
      · exact ⟨c', hmem, hemp, hbad⟩
    · rw [if_neg he]
      cases hpf : pf (strip c) with
      | none => exact ⟨_, rfl⟩
      | some v =>
        dsimp only
        by_cases hr : 0 ≤ v ∧ v ≤ 1
        · rw [if_pos hr]
          have hrest : ∃ c' ∈ rest, (strip c').isEmpty = false ∧
              ∃ w, pf (strip c') = some w ∧ ¬(0 ≤ w ∧ w ≤ 1) := by
            rcases h with ⟨c', hc', hemp, w, hw, hwr⟩
            rcases List.mem_cons.mp hc' with rfl | hmem
            · rw [hpf] at hw
              injection hw with hww
              exact absurd hr (hww ▸ hwr)
            · exact ⟨c', hmem, hemp, w, hw, hwr⟩
          rcases ih hrest with ⟨e, he2⟩
          rw [he2]
          exact ⟨e, rfl⟩
        · rw [if_neg hr]
          exact ⟨_, rfl⟩

/-- An out-of-range element anywhere in the sweep string makes `parse_sweep`
exit with `SystemExit` before returning any value list. -/
theorem parse_sweep_reject (pf : String → Option ℚ) (s : String)
    (h : ∃ c ∈ splitComma s, (strip c).isEmpty = false ∧
          ∃ v, pf (strip c) = some v ∧ ¬(0 ≤ v ∧ v ≤ 1)) :
    ∃ e, parse_sweep pf s = Except.error e := by
  rcases parse_chunks_reject pf (splitComma s) h with ⟨e, he⟩
  rw [parse_sweep, he]
  exact ⟨e, rfl⟩

/-- C2 as stated fails on the code: the single `--top-p` value is never
range-checked. With `--top-p 1.5` and no `--sweep`, the out-of-range value
3/2 is selected for the request loop (`Except.ok`) instead of being
rejected before any request. -/
theorem top_p_single_value_not_validated :
    ¬((0 : ℚ) ≤ 3 / 2 ∧ (3 / 2 : ℚ) ≤ 1) ∧
    select_p_vals (fun _ => none) none (3 / 2) = Except.ok [3 / 2] := by
  constructor
  · intro hc
    exact absurd hc.2 (by norm_num)
  · rfl

/-- C2 amended: nucleus values supplied through `--sweep` are validated in
both directions — every value list the sweep parser accepts contains only
values in [0.0, 1.0], and a sweep containing an out-of-range element makes
the program terminate with `SystemExit` before any request is issued —
whereas the single `--top-p` value is passed to the request loop without any
range validation. -/
theorem sweep_values_validated :
    (∀ (pf : String → Option ℚ) (s : String) (vals : List ℚ),
        parse_sweep pf s = Except.ok vals → ∀ v ∈ vals, 0 ≤ v ∧ v ≤ 1) ∧
    (∀ (pf : String → Option ℚ) (s : String) (p : ℚ),
        s.isEmpty = false →
        (∃ c ∈ splitComma s, (strip c).isEmpty = false ∧
          ∃ v, pf (strip c) = some v ∧ ¬(0 ≤ v ∧ v ≤ 1)) →
        ∃ e, select_p_vals pf (some s) p = Except.error e) ∧
    (∀ (pf : String → Option ℚ) (p : ℚ),
        select_p_vals pf none p = Except.ok [p]) := by
  refine ⟨parse_sweep_sound, ?_, fun _ _ => rfl⟩
  intro pf s p hs h
  rcases parse_sweep_reject pf s h with ⟨e, he⟩
  refine ⟨e, ?_⟩
  have ht : pyTruthy (some s) = true := by simp [pyTruthy, hs]
  unfold select_p_vals
  rw [if_pos ht]
  exact he

/-- Evaluation of the sweep parser on the concrete sweep string `"0.7"`. -/
theorem parse_sweep_eval_07 :
    parse_sweep (fun t => if t = "0.7" then some (7 / 10 : ℚ) else none) "0.7" =
      Except.ok [7 / 10] := by
  have h1 : splitComma "0.7" = ["0.7"] := rfl
  have hs : strip "0.7" = "0.7" := rfl
  rw [parse_sweep, h1, parse_chunks, hs]
  norm_num
  have he : "0.7".isEmpty = false := rfl
  simp [he, parse_chunks]

/-- Witness for the amended C2: the concrete sweep string `"0.7"` is
accepted and its value 7/10 is certified in range; a plain `--top-p 0.5`
run selects exactly that value. -/
theorem sweep_values_validated_witness :
    ((0 : ℚ) ≤ 7 / 10 ∧ (7 / 10 : ℚ) ≤ 1) ∧
    (∃ e, select_p_vals (fun t => if t = "1.5" then some (3 / 2) else none)
        (some "1.5") (1 / 2) = Except.error e) ∧
    select_p_vals (fun _ => none) none (1 / 2) = Except.ok [1 / 2] :=
  ⟨sweep_values_validated.1 (fun t => if t = "0.7" then some (7 / 10) else none)
      "0.7" [7 / 10] parse_sweep_eval_07 (7 / 10) (by simp),
   sweep_values_validated.2.1 (fun t => if t = "1.5" then some (3 / 2) else none)
      "1.5" (1 / 2) rfl
      ⟨"1.5", by rw [show splitComma "1.5" = ["1.5"] from rfl]; exact List.mem_singleton.mpr rfl,
        rfl, 3 / 2, rfl, by norm_num⟩,
   sweep_values_validated.2.2 (fun _ => none) (1 / 2)⟩
